import Mathlib

/-!
Verification of the mainframe message monitor dashboard (`app.py`).

The page reads a Firestore collection of log-message documents, renders the
most recent records in a table with a CSV export, and computes token-frequency
analytics over the messages whose `predicted_label` field is `"critical"`.

The embedding below models the data layer (documents, DataFrames built from
lists of field dictionaries), the fetch function with its two-tier query
fallback, the credential-initialisation routine, the display pass
(sort by `TIMESTMP` descending, `head(500)`, label filter, column selection,
`fillna("")`, CSV serialisation), the critical-message analytics pipeline
(uppercase, regex tokenisation on `[A-Z0-9']+`, stop-word and length
filtering, `Counter.most_common(20)`) and the auto-refresh timer step.
External effects (Firestore query outcomes, the wall clock, secret lookup,
file reads) are passed in as explicit parameters, as usual for a shallow
embedding of exception-raising library calls.
-/

/-- A field value stored in a document / DataFrame cell.  The dashboard only
ever compares string fields and orders timestamp fields, so values are
modelled as strings or integers; a missing cell is `Option.none` (pandas
`NaN`). -/
inductive Val where
  | vStr (s : String)
  | vInt (n : Int)
deriving DecidableEq, BEq, Repr

/-- A row is the field dictionary of a record: an association list from
column name to value.  A column name absent from the list is a `NaN` cell,
exactly as `pandas.DataFrame` fills missing keys when built from a list of
dicts. -/
abbrev Row := List (String × Val)

/-- Cell lookup: `none` models `NaN`. -/
def getCell (r : Row) (c : String) : Option Val :=
  r.lookup c

/-- A pandas DataFrame: a column list plus the rows. -/
structure DataFrame where
  cols : List String
  rows : List Row
deriving DecidableEq, Repr

/-- A Firestore document: its id plus its field dictionary. -/
structure Doc where
  id : String
  fields : List (String × Val)
deriving DecidableEq, Repr

/-- The nine columns `fetch_messages` creates for an empty result
(`app.py` line 110), in source order. -/
def emptyResultCols : List String :=
  ["SEQNO", "TIMESTMP", "JOBNAME", "MSGID", "USERID", "TEXT",
   "predicted_label", "pred_prob_critical", "_docid"]

/-- Keep the first occurrence of every element, in order — how pandas forms
the column union over a list of dicts, and how `Counter` keeps insertion
order. -/
def firstDedup (l : List String) : List String :=
  l.foldl (fun acc t => if t ∈ acc then acc else acc ++ [t]) []

/-- The row built from one document: its fields, then `_docid` appended
(`app.py` lines 102-103). -/
def rowOfDoc (d : Doc) : Row :=
  d.fields ++ [("_docid", Val.vStr d.id)]

/-- Column union over the rows, in first-appearance order. -/
def colsOfRows (rows : List Row) : List String :=
  firstDedup (rows.flatMap (fun r => r.map Prod.fst))

/-- `pd.DataFrame(rows)` when `rows` is non-empty, and the nine-column empty
frame otherwise (`app.py` lines 106-111). -/
def buildFrame (docs : List Doc) : DataFrame :=
  let rows := docs.map rowOfDoc
  if rows.isEmpty then ⟨emptyResultCols, []⟩ else ⟨colsOfRows rows, rows⟩

/-- The Firestore operations the client library offers.  The dashboard only
issues the two query shapes; writes are included so that read-only-ness is a
theorem rather than a vacuity of the operation language. -/
inductive FsOp where
  | orderedQuery (coll field : String) (descending : Bool) (lim : Nat)
  | limitQuery (coll : String) (lim : Nat)
  | setDoc (coll : String) (d : Doc)
  | deleteDoc (coll docId : String)
deriving DecidableEq, Repr

/-- Whether an operation mutates the database. -/
def FsOp.isWrite : FsOp → Bool
  | .orderedQuery _ _ _ _ => false
  | .limitQuery _ _ => false
  | .setDoc _ _ => true
  | .deleteDoc _ _ => true

/-- The database: collections of documents, keyed by collection name. -/
abbrev FsDb := List (String × List Doc)

/-- Documents of a collection (an unknown collection is empty). -/
def getColl (db : FsDb) (c : String) : List Doc :=
  (db.lookup c).getD []

/-- Replace a collection's contents. -/
def setColl (db : FsDb) (c : String) (ds : List Doc) : FsDb :=
  (c, ds) :: db.filter (fun p => p.1 ≠ c)

/-- Execute one Firestore operation: the new database state and the documents
returned.  Query ordering is left abstract (the claims proved here do not
depend on server-side ordering), but writes genuinely mutate the state. -/
def applyOp (db : FsDb) : FsOp → FsDb × List Doc
  | .orderedQuery c _ _ lim => (db, (getColl db c).take lim)
  | .limitQuery c lim => (db, (getColl db c).take lim)
  | .setDoc c d => (setColl db c (d :: getColl db c), [])
  | .deleteDoc c i => (setColl db c ((getColl db c).filter (fun d => d.id ≠ i)), [])

/-- Run a list of operations from left to right, returning the final state. -/
def runOps (db : FsDb) (ops : List FsOp) : FsDb :=
  ops.foldl (fun s op => (applyOp s op).1) db

/-- Result of one `fetch_messages` call: the returned DataFrame, the error
message shown (if any), and the Firestore operations attempted, in order. -/
structure FetchResult where
  frame : DataFrame
  errorShown : Option String
  attempts : List FsOp
deriving DecidableEq, Repr

/-- `fetch_messages` (`app.py` lines 85-111).  The outcomes of the two
possible queries are passed in: `ordered` is what
`order_by("TIMESTMP", DESCENDING).limit(limit).stream()` produces
(`Except.error` models the raised exception), `unordered` is what the
bare `limit(limit).stream()` would produce if attempted. -/
def fetchMessages (collection : String) (lim : Nat)
    (ordered unordered : Except String (List Doc)) : FetchResult :=
  match ordered with
  | .ok docs =>
      ⟨buildFrame docs, none, [.orderedQuery collection "TIMESTMP" true lim]⟩
  | .error _ =>
      match unordered with
      | .ok docs =>
          ⟨buildFrame docs, none,
           [.orderedQuery collection "TIMESTMP" true lim, .limitQuery collection lim]⟩
      | .error e2 =>
          ⟨⟨[], []⟩,
           some ("Failed to fetch collection '" ++ collection ++ "': " ++ e2),
           [.orderedQuery collection "TIMESTMP" true lim, .limitQuery collection lim]⟩

/-- A service-account payload (the parsed JSON object). -/
abbrev Sa := List (String × String)

/-- The `FIREBASE_SERVICE_ACCOUNT` secrets entry: either already a dict, or a
string whose JSON-parse attempt is recorded (`Except.error` models
`json.loads` raising). -/
inductive SecretEntry where
  | dict (sa : Sa)
  | str (parsed : Except String Sa)

/-- Outcome of `init_firestore_from_secrets`: either the page continues with
the Firebase app, or `st.error(msg)` was shown and `st.stop()` halted it. -/
inductive InitOutcome where
  | app
  | halted (msg : String)
deriving DecidableEq, Repr

/-- `init_firestore_from_secrets` (`app.py` lines 29-75).  `apps` is whether
`firebase_admin._apps` is non-empty; `secret` is the secrets entry (if
present); `localExists`/`localRead` model the `serviceAccount.json` fallback
file; `initApp` models `credentials.Certificate` + `initialize_app`
(`Except.error` is a raised exception). -/
def initFirestoreFromSecrets (apps : Bool) (secret : Option SecretEntry)
    (localExists : Bool) (localRead : Except String Sa)
    (initApp : Sa → Except String Unit) : InitOutcome :=
  if apps then .app
  else
    let sa : Option Sa ⊕ String :=
      match secret with
      | some (.dict d) => .inl (some d)
      | some (.str (.ok d)) => .inl (some d)
      | some (.str (.error _)) =>
          .inr "Failed to parse FIREBASE_SERVICE_ACCOUNT JSON from Streamlit secrets."
      | none => .inl none
    match sa with
    | .inr msg => .halted msg
    | .inl saOpt =>
      let sa2 : Option Sa ⊕ String :=
        match saOpt with
        | some d => .inl (some d)
        | none =>
            if localExists then
              match localRead with
              | .ok d => .inl (some d)
              | .error _ => .inr "Failed to read local serviceAccount.json."
            else .inl none
      match sa2 with
      | .inr msg => .halted msg
      | .inl none =>
          .halted "Service account JSON not found in Streamlit secrets or serviceAccount.json file. See README."
      | .inl (some d) =>
          match initApp d with
          | .ok _ => .app
          | .error e => .halted ("Failed to initialize Firebase app: " ++ e)

/-- Total order on values used to model `sort_values`: integers by integer
order, strings lexicographically (the cross-type case is fixed arbitrarily;
a well-typed `TIMESTMP` column never mixes them). -/
def valLe : Val → Val → Bool
  | .vInt m, .vInt n => decide (m ≤ n)
  | .vStr s, .vStr t => decide (s ≤ t)
  | .vInt _, .vStr _ => true
  | .vStr _, .vInt _ => false

/-- Descending comparison on optional cells with `NaN` last, matching
`sort_values(by=..., ascending=False)` with the default `na_position`:
a cell precedes another when its value is at least as large, and a missing
cell never precedes a present one. -/
def cellGe : Option Val → Option Val → Bool
  | _, none => true
  | none, some _ => false
  | some x, some y => valLe y x

/-- Row comparison for the display sort: by the `TIMESTMP` cell,
descending, `NaN` last. -/
def tsGe (a b : Row) : Prop :=
  cellGe (getCell a "TIMESTMP") (getCell b "TIMESTMP") = true

instance : DecidableRel tsGe := fun a b => by
  unfold tsGe; infer_instance

/-- The display pass of the main column (`app.py` lines 155-162): sort by
`TIMESTMP` descending when that column exists, keep the first 500 rows, then
apply the label filter when one is selected and the column exists.  (pandas
equality of a `NaN` cell with a string is `False`, so filtered-in rows have
the label present and equal.) -/
def displaySortHead (df : DataFrame) : DataFrame :=
  if "TIMESTMP" ∈ df.cols then
    ⟨df.cols, (List.insertionSort tsGe df.rows).take 500⟩
  else ⟨df.cols, df.rows.take 500⟩

/-- The label-filter step applied to the sorted-and-capped frame
(`app.py` lines 161-162). -/
def displayDfOf (df : DataFrame) (filterLabel : String) : DataFrame :=
  if filterLabel ≠ "all" ∧ "predicted_label" ∈ (displaySortHead df).cols then
    ⟨(displaySortHead df).cols,
     (displaySortHead df).rows.filter
       (fun r => getCell r "predicted_label" == some (Val.vStr filterLabel))⟩
  else displaySortHead df

/-- The candidate display columns, in the order of `show_cols`
(`app.py` line 164). -/
def showColsAll : List String :=
  ["SEQNO", "TIMESTMP", "JOBNAME", "MSGID", "USERID",
   "predicted_label", "pred_prob_critical", "TEXT", "_docid"]

/-- `show_cols`: the candidate columns present in the frame. -/
def showCols (df : DataFrame) : List String :=
  showColsAll.filter (fun c => c ∈ df.cols)

/-- How a cell value prints, both in the on-screen table and in a CSV
field: strings as themselves, integers in decimal.  A missing cell prints
as the empty string — on screen because of `fillna("")`, in the CSV because
`to_csv` writes `NaN` with the default empty `na_rep`. -/
def renderVal : Val → String
  | .vStr s => s
  | .vInt n => toString n

/-- `fillna("")` on a single cell. -/
def fillnaCell (c : Option Val) : Option Val :=
  match c with
  | none => some (Val.vStr "")
  | some v => some v

/-- Render of a possibly-missing cell. -/
def renderCell : Option Val → String
  | none => ""
  | some v => renderVal v

/-- The grid of cell texts the on-screen table shows:
`display_df[show_cols].fillna("")` rendered row by row. -/
def displayedGrid (df : DataFrame) : List (List String) :=
  df.rows.map (fun r => (showCols df).map (fun c => renderCell (fillnaCell (getCell r c))))

/-- CSV field encoding with minimal quoting, as `to_csv` emits it. -/
def csvField (s : String) : String :=
  if s.contains ',' || s.contains '"' || s.contains '\n' || s.contains '\r' then
    "\"" ++ s.replace "\"" "\"\"" ++ "\""
  else s

/-- One CSV line. -/
def csvLine (cells : List String) : String :=
  String.intercalate "," cells

/-- The canonical CSV encoding of a header plus a grid of cell texts. -/
def csvOfGrid (header : List String) (grid : List (List String)) : String :=
  csvLine (header.map csvField) ++ "\n" ++
    String.join (grid.map (fun row => csvLine (row.map csvField) ++ "\n"))

/-- `display_df[show_cols].to_csv(index=False)` (`app.py` line 168): header
from the selected columns, then each row's cells, `NaN` as empty. -/
def toCsv (df : DataFrame) : String :=
  csvLine ((showCols df).map csvField) ++ "\n" ++
    String.join (df.rows.map (fun r =>
      csvLine ((showCols df).map (fun c => csvField (renderCell (getCell r c)))) ++ "\n"))

/-- The bounds and default of the sidebar "Documents to fetch" control
(`app.py` line 118): `min_value=50, max_value=5000, value=1000`. -/
def fetchLimitControl : Nat × Nat × Nat := (50, 5000, 1000)

/-- A concrete fetched frame used to witness the display-sort theorem. -/
def dfEx : DataFrame :=
  ⟨["TIMESTMP", "TEXT"],
   [[("TIMESTMP", Val.vInt 1), ("TEXT", Val.vStr "a")],
    [("TIMESTMP", Val.vInt 5), ("TEXT", Val.vStr "b")]]⟩

/-- Membership of a character in the regex class `[A-Z0-9']` (code point 39
is the apostrophe). -/
def isTokChar (c : Char) : Bool :=
  (decide ('A' ≤ c) && decide (c ≤ 'Z')) ||
  (decide ('0' ≤ c) && decide (c ≤ '9')) ||
  c.toNat == 39

/-- Split a character list into its maximal runs of token characters — what
`re.findall(r"[A-Z0-9']+", s)` returns on an uppercased string.  `acc` holds
the reversed current run. -/
def tokensAux : List Char → List Char → List (List Char)
  | [], acc => if acc.isEmpty then [] else [acc.reverse]
  | c :: cs, acc =>
    if isTokChar c then tokensAux cs (c :: acc)
    else if acc.isEmpty then tokensAux cs [] else acc.reverse :: tokensAux cs []

/-- `re.findall(r"[A-Z0-9']+", s)`. -/
def tokenRuns (s : String) : List String :=
  (tokensAux s.data []).map (fun l => String.mk l)

/-- Python `str.upper()` (ASCII case, which is all the regex class keeps). -/
def pyUpper (s : String) : String :=
  String.mk (s.data.map Char.toUpper)

/-- `str(x)` as pandas `astype(str)` applies it to a cell: `NaN` becomes the
string `"nan"`. -/
def pyStr : Option Val → String
  | none => "nan"
  | some (.vStr s) => s
  | some (.vInt n) => toString n

/-- All tokens of all texts: each text uppercased then tokenised, in order
(`tokens = crits.str.findall(...)` flattened by `itertools.chain`,
`app.py` lines 181-182). -/
def allTokens (texts : List String) : List String :=
  texts.flatMap (fun t => tokenRuns (pyUpper t))

/-- The stop-word set of `app.py` line 183. -/
def stopWords : List String :=
  ["THE", "AND", "TO", "OF", "IN", "IS", "A", "AN", "JOB", "STEP", "USER",
   "MSG", "OPS"]

/-- The tokens that reach the counter: `t not in stop and len(t) > 1`
(`app.py` line 184). -/
def keptTokens (texts : List String) : List String :=
  (allTokens texts).filter (fun t => decide (t ∉ stopWords) && decide (1 < t.length))

/-- `Counter(...)` as an association list in first-insertion order. -/
def freq (texts : List String) : List (String × Nat) :=
  (firstDedup (keptTokens texts)).map (fun t => (t, (keptTokens texts).count t))

/-- Non-increasing count order on counter entries. -/
def cntGe (p q : String × Nat) : Prop := q.2 ≤ p.2

instance : DecidableRel cntGe := fun p q => Nat.decLe q.2 p.2

/-- `Counter.most_common(n)`: the entries sorted by count descending (stable
in insertion order), truncated to `n`. -/
def mostCommon (n : Nat) (ps : List (String × Nat)) : List (String × Nat) :=
  (List.insertionSort cntGe ps).take n

/-- `top = freq.most_common(20)` (`app.py` line 185) over the given critical
texts. -/
def topTokens (texts : List String) : List (String × Nat) :=
  mostCommon 20 (freq texts)

/-- The rows whose `predicted_label` equals `"critical"`
(`df[df['predicted_label']=='critical']`, `app.py` lines 179-180). -/
def crits (df : DataFrame) : List Row :=
  df.rows.filter (fun r => decide (getCell r "predicted_label" = some (Val.vStr "critical")))

/-- The `TEXT` column of the critical rows, as `astype(str)` yields it. -/
def critTexts (df : DataFrame) : List String :=
  (crits df).map (fun r => pyStr (getCell r "TEXT"))

/-- The token-frequency analytic of the page, as a function of the fetched
frame: `most_common(20)` over the critical texts. -/
def topTokensOf (df : DataFrame) : List (String × Nat) :=
  topTokens (critTexts df)

/-- `text_concat = " ".join(crits.tolist())` (`app.py` line 192): the word
cloud's input, the uppercased critical texts joined by spaces. -/
def wordcloudText (df : DataFrame) : String :=
  String.intercalate " " ((critTexts df).map pyUpper)

/-- Result of one pass of the auto-refresh block (`app.py` lines 131-139):
the session timestamp after the pass and whether the cache clear and the
rerun were triggered. -/
structure RefreshStep where
  lastRefresh : ℚ
  cacheCleared : Bool
  rerun : Bool
deriving DecidableEq, Repr

/-- The auto-refresh block.  `stored` is `st.session_state["last_refresh"]`
(absent on a fresh session), `now0` the clock value used to initialise it in
that case, `now` the value of `now = time.time()`, and `refreshSeconds` the
sidebar interval (an integer control; the code casts with `int(...)`). -/
def autoRefresh (stored : Option ℚ) (now0 now : ℚ) (refreshSeconds : ℤ) : RefreshStep :=
  let last := stored.getD now0
  if now - last > (refreshSeconds : ℚ) then ⟨now, true, true⟩
  else ⟨last, false, false⟩

theorem valLe_total (a b : Val) : valLe a b = true ∨ valLe b a = true := by
  cases a <;> cases b <;> simp [valLe] <;> exact le_total _ _

theorem valLe_trans {a b c : Val} (h1 : valLe a b = true) (h2 : valLe b c = true) :
    valLe a c = true := by
  cases a <;> cases b <;> cases c <;>
    simp_all [valLe] <;> exact le_trans h1 h2

theorem cellGe_total (x y : Option Val) : cellGe x y = true ∨ cellGe y x = true := by
  cases x with
  | none => cases y <;> simp [cellGe]
  | some vx =>
    cases y with
    | none => simp [cellGe]
    | some vy => simpa [cellGe] using valLe_total vy vx

theorem cellGe_trans {x y z : Option Val} (h1 : cellGe x y = true)
    (h2 : cellGe y z = true) : cellGe x z = true := by
  cases z with
  | none => simp [cellGe]
  | some vz =>
    cases y with
    | none => simp [cellGe] at h2
    | some vy =>
      cases x with
      | none => simp [cellGe] at h1
      | some vx =>
        simp only [cellGe] at h1 h2 ⊢
        exact valLe_trans h2 h1

instance : IsTotal Row tsGe :=
  ⟨fun a b => cellGe_total (getCell a "TIMESTMP") (getCell b "TIMESTMP")⟩

instance : IsTrans Row tsGe :=
  ⟨fun _ _ _ h1 h2 => cellGe_trans h1 h2⟩

theorem sorted_displaySortHead (df : DataFrame) (h : "TIMESTMP" ∈ df.cols) :
    List.Sorted tsGe (displaySortHead df).rows := by
  unfold displaySortHead
  rw [if_pos h]
  exact List.Pairwise.sublist (List.take_sublist 500 _)
    (List.sorted_insertionSort tsGe df.rows)

/-- C1: if the ordered query raises, `fetch_messages` falls back to the
unordered limit-only query; if that also raises it shows an error and
returns an empty DataFrame; exactly these two tiers are attempted, in
order, with no retries. -/
theorem fetch_messages_fallback_tiers (c : String) (lim : Nat)
    (docs : List Doc) (u : Except String (List Doc)) (e e2 : String) :
    fetchMessages c lim (.ok docs) u =
      ⟨buildFrame docs, none, [.orderedQuery c "TIMESTMP" true lim]⟩ ∧
    fetchMessages c lim (.error e) (.ok docs) =
      ⟨buildFrame docs, none,
       [.orderedQuery c "TIMESTMP" true lim, .limitQuery c lim]⟩ ∧
    fetchMessages c lim (.error e) (.error e2) =
      ⟨⟨[], []⟩, some ("Failed to fetch collection '" ++ c ++ "': " ++ e2),
       [.orderedQuery c "TIMESTMP" true lim, .limitQuery c lim]⟩ := by
  refine ⟨rfl, rfl, rfl⟩

/-- C2: every credential-loading failure — unparseable secrets JSON,
unreadable local fallback file, no credentials found anywhere, or Firebase
initialisation raising (from either credential source) — makes
`init_firestore_from_secrets` show an error message and halt the page. -/
theorem init_firestore_halts_on_failure (lE : Bool)
    (lR : Except String Sa) (ia : Sa → Except String Unit)
    (e eR eI : String) (sa : Sa) :
    initFirestoreFromSecrets false (some (.str (.error e))) lE lR ia =
      .halted "Failed to parse FIREBASE_SERVICE_ACCOUNT JSON from Streamlit secrets." ∧
    initFirestoreFromSecrets false none true (.error eR) ia =
      .halted "Failed to read local serviceAccount.json." ∧
    initFirestoreFromSecrets false none false lR ia =
      .halted "Service account JSON not found in Streamlit secrets or serviceAccount.json file. See README." ∧
    initFirestoreFromSecrets false (some (.dict sa)) lE lR (fun _ => .error eI) =
      .halted ("Failed to initialize Firebase app: " ++ eI) ∧
    initFirestoreFromSecrets false (some (.str (.ok sa))) lE lR (fun _ => .error eI) =
      .halted ("Failed to initialize Firebase app: " ++ eI) ∧
    initFirestoreFromSecrets false none true (.ok sa) (fun _ => .error eI) =
      .halted ("Failed to initialize Firebase app: " ++ eI) := by
  refine ⟨rfl, rfl, rfl, rfl, rfl, rfl⟩

/-- C9: when the query yields zero documents (through either tier),
`fetch_messages` returns a DataFrame with zero rows and exactly the nine
columns `SEQNO, TIMESTMP, JOBNAME, MSGID, USERID, TEXT, predicted_label,
pred_prob_critical, _docid`. -/
theorem empty_fetch_has_nine_columns (c : String) (lim : Nat)
    (u : Except String (List Doc)) (e : String) :
    (fetchMessages c lim (.ok []) u).frame =
      ⟨["SEQNO", "TIMESTMP", "JOBNAME", "MSGID", "USERID", "TEXT",
        "predicted_label", "pred_prob_critical", "_docid"], []⟩ ∧
    (fetchMessages c lim (.error e) (.ok [])).frame =
      ⟨["SEQNO", "TIMESTMP", "JOBNAME", "MSGID", "USERID", "TEXT",
        "predicted_label", "pred_prob_critical", "_docid"], []⟩ := by
  refine ⟨rfl, rfl⟩

/-- C8: `fetch_messages` issues only read operations under every outcome of
the two query tiers, so executing its attempts leaves the database — in
particular the queried collection's contents — unchanged.  (The fetch
function is the only place in the page that touches the database.) -/
theorem fetch_messages_read_only (db : FsDb) (c : String) (lim : Nat)
    (o u : Except String (List Doc)) :
    runOps db (fetchMessages c lim o u).attempts = db ∧
    (fetchMessages c lim o u).attempts.all (fun op => !op.isWrite) = true := by
  cases o with
  | ok docs => exact ⟨rfl, rfl⟩
  | error e =>
    cases u with
    | ok docs => exact ⟨rfl, rfl⟩
    | error e2 => exact ⟨rfl, rfl⟩

/-- C3: when the fetched frame has a `TIMESTMP` column, the rows the table
displays are in non-increasing `TIMESTMP` order (missing timestamps last):
the display pass sorts by `TIMESTMP` descending before capping and
filtering, and both later steps preserve the order. -/
theorem display_rows_sorted_desc (df : DataFrame) (fl : String)
    (h : "TIMESTMP" ∈ df.cols) :
    List.Sorted tsGe (displayDfOf df fl).rows := by
  unfold displayDfOf
  split
  · exact List.Pairwise.filter _ (sorted_displaySortHead df h)
  · exact sorted_displaySortHead df h

theorem display_rows_sorted_desc_witness :
    "TIMESTMP" ∈ dfEx.cols ∧ List.Sorted tsGe (displayDfOf dfEx "all").rows :=
  ⟨by decide, display_rows_sorted_desc dfEx "all" (by decide)⟩

theorem render_fillna (c : Option Val) :
    renderCell (fillnaCell c) = renderCell c := by
  cases c <;> rfl

/-- C4: the CSV export contains exactly the displayed rows: for every
fetched frame and filter selection, the bytes behind the download button are
the canonical CSV encoding of the very grid of cell texts the on-screen
table shows (same rows, same columns, same cell values — a missing cell is
shown as `""` by `fillna("")` and written as the empty field by `to_csv`). -/
theorem csv_matches_displayed (df : DataFrame) (fl : String) :
    toCsv (displayDfOf df fl) =
      csvOfGrid (showCols (displayDfOf df fl)) (displayedGrid (displayDfOf df fl)) := by
  unfold toCsv csvOfGrid displayedGrid
  congr 1
  refine congrArg String.join ?_
  rw [List.map_map]
  refine List.map_congr_left (fun r _ => ?_)
  simp [Function.comp_def, List.map_map, render_fillna]

/-- C10: the displayed table (and hence the CSV export, which serialises the
same frame) never exceeds 500 rows, although the sidebar fetch-limit control
allows fetching up to 5000 documents. -/
theorem display_row_cap (df : DataFrame) (fl : String) :
    fetchLimitControl.2.1 = 5000 ∧ (displayDfOf df fl).rows.length ≤ 500 := by
  refine ⟨rfl, ?_⟩
  have hhead : (displaySortHead df).rows.length ≤ 500 := by
    unfold displaySortHead
    split <;> simp [List.length_take]
  unfold displayDfOf
  split
  · exact le_trans (List.length_filter_le _ _) hhead
  · exact hhead

instance : IsTotal (String × Nat) cntGe :=
  ⟨fun a b => Nat.le_total b.2 a.2⟩

instance : IsTrans (String × Nat) cntGe :=
  ⟨fun _ _ _ h1 h2 => le_trans h2 h1⟩

theorem foldl_firstDedup_mem (l : List String) :
    ∀ (acc : List String) (x : String),
      x ∈ l.foldl (fun acc t => if t ∈ acc then acc else acc ++ [t]) acc →
      x ∈ acc ∨ x ∈ l := by
  induction l with
  | nil => exact fun acc x h => Or.inl h
  | cons a l ih =>
    intro acc x h
    rw [List.foldl_cons] at h
    rcases ih _ x h with hacc | hl
    · by_cases ha : a ∈ acc
      · rw [if_pos ha] at hacc
        exact Or.inl hacc
      · rw [if_neg ha] at hacc
        rcases List.mem_append.mp hacc with h1 | h2
        · exact Or.inl h1
        · have : x = a := List.mem_singleton.mp h2
          subst this
          exact Or.inr (List.mem_cons_self _ _)
    · exact Or.inr (List.mem_cons_of_mem _ hl)

theorem firstDedup_subset {x : String} {l : List String}
    (h : x ∈ firstDedup l) : x ∈ l := by
  rcases foldl_firstDedup_mem l [] x h with h0 | h1
  · exact absurd h0 (List.not_mem_nil x)
  · exact h1

/-- C5: a record contributes to the critical-message analytics exactly when
its `predicted_label` field equals the string `"critical"`: the filtered row
set is characterised by that equality, and both the token-frequency analytic
and the word-cloud input are computed from precisely those rows' texts. -/
theorem crits_exactly_critical (df : DataFrame) (r : Row) :
    (r ∈ crits df ↔
      r ∈ df.rows ∧ getCell r "predicted_label" = some (Val.vStr "critical")) ∧
    topTokensOf df = topTokens ((crits df).map (fun row => pyStr (getCell row "TEXT"))) ∧
    wordcloudText df =
      String.intercalate " "
        (((crits df).map (fun row => pyStr (getCell row "TEXT"))).map pyUpper) := by
  refine ⟨?_, rfl, rfl⟩
  simp [crits, List.mem_filter]

/-- C6 counterexample: in the single critical text `"the the the error"`
the token `THE` occurs three times, yet the reported frequency ranking is
`[("ERROR", 1)]` — it neither contains `THE` nor ranks it, because the code
drops stop-list tokens before counting.  So the reported counts do not equal
the occurrence counts of each token of the critical texts. -/
theorem token_freq_counterexample :
    (allTokens ["the the the error"]).count "THE" = 3 ∧
    topTokens ["the the the error"] = [("ERROR", 1)] := by
  exact ⟨by decide, by decide⟩

/-- C6 (amended): the token-frequency analytic uppercases each critical
text, splits it on the regex `[A-Z0-9']+`, drops tokens in the stop list
`THE, AND, TO, OF, IN, IS, A, AN, JOB, STEP, USER, MSG, OPS` and tokens of
length ≤ 1, and reports at most 20 entries in non-increasing count order;
every reported token passes those filters and its reported count equals its
number of occurrences across all critical texts. -/
theorem token_freq_filtered_ranking (texts : List String) :
    List.Sorted cntGe (topTokens texts) ∧
    (topTokens texts).length ≤ 20 ∧
    ∀ p : String × Nat, p ∈ topTokens texts →
      p.1 ∉ stopWords ∧ 1 < p.1.length ∧ p.2 = (allTokens texts).count p.1 := by
  refine ⟨?_, ?_, ?_⟩
  · exact List.Pairwise.sublist (List.take_sublist 20 _)
      (List.sorted_insertionSort cntGe (freq texts))
  · rw [topTokens, mostCommon, List.length_take]
    exact min_le_left _ _
  · intro p hp
    simp only [topTokens, mostCommon] at hp
    have hp1 : p ∈ List.insertionSort cntGe (freq texts) :=
      List.take_subset 20 _ hp
    have hp2 : p ∈ freq texts :=
      (List.perm_insertionSort cntGe (freq texts)).mem_iff.mp hp1
    simp only [freq, List.mem_map] at hp2
    obtain ⟨t, ht, rfl⟩ := hp2
    have htk : t ∈ keptTokens texts := firstDedup_subset ht
    have hcond := (List.mem_filter.mp htk).2
    simp only [Bool.and_eq_true, decide_eq_true_eq] at hcond
    refine ⟨hcond.1, hcond.2, ?_⟩
    show (keptTokens texts).count t = (allTokens texts).count t
    exact List.count_filter (by simp [hcond.1, hcond.2])

theorem token_freq_filtered_ranking_witness :
    ("ERROR", 1) ∈ topTokens ["the the the error"] ∧
    ("ERROR" ∉ stopWords ∧ 1 < "ERROR".length ∧
      1 = (allTokens ["the the the error"]).count "ERROR") :=
  ⟨by decide,
   (token_freq_filtered_ranking ["the the the error"]).2.2 ("ERROR", 1) (by decide)⟩

/-- C7: the auto-refresh pass triggers the cache clear and page rerun
exactly when the current time minus the session-held `last_refresh` exceeds
the configured interval; on a trigger `last_refresh` becomes the current
time, and otherwise it is unchanged. -/
theorem auto_refresh_trigger (last now0 now : ℚ) (r : ℤ) :
    ((autoRefresh (some last) now0 now r).rerun = true ↔ now - last > (r : ℚ)) ∧
    (autoRefresh (some last) now0 now r).cacheCleared =
      (autoRefresh (some last) now0 now r).rerun ∧
    (autoRefresh (some last) now0 now r).lastRefresh =
      (if now - last > (r : ℚ) then now else last) := by
  unfold autoRefresh
  simp only [Option.getD_some]
  split <;> simp_all
